import Mathlib

/-!
Verification of the Quad-Life simulation core of `gh-game-of-life`
(`gh_game_of_life.core`: `cell_state`, `grid`, `quad_rules`, `game`).
The repository ships the tests of this core (`tests/core/*.py`) and its
callers (`app/backend/api.py`), while the core modules themselves are not
present in the tree; the definitions below are therefore modelled from the
specification, with the repository's tests fixing concrete data such as the
GitHub color palette and error messages.
-/

namespace GhGameOfLife

/-- Modelled from the spec: `CellState` in `gh_game_of_life.core.cell_state`
is a closed enumeration of 5 values: DEAD plus four alive "green" intensities,
with integer values 0..4 (`CellState.DEAD == 0`, ..., `CellState.GREEN_4 == 4`). -/
inductive CellState where
  | DEAD
  | GREEN_1
  | GREEN_2
  | GREEN_3
  | GREEN_4
deriving DecidableEq, Repr, Fintype

/-- Modelled from the spec: the integer value carried by each `CellState`
enum member (DEAD=0 ... GREEN_4=4), as exercised by `to_list`. -/
def CellState.toInt : CellState → Nat
  | .DEAD => 0
  | .GREEN_1 => 1
  | .GREEN_2 => 2
  | .GREEN_3 => 3
  | .GREEN_4 => 4

/-- Modelled from the spec: `CellState.is_alive` is true for every non-DEAD
variant. -/
def CellState.is_alive : CellState → Bool
  | .DEAD => false
  | _ => true

/-- Modelled from the spec: `ColorQuad.get_color` maps each `CellState` to its
GitHub-palette RGB triple (values fixed by `test_github_palette_mapping`):
DEAD ↦ #ebedf0, GREEN_1 ↦ #c6e48b, GREEN_2 ↦ #7ee787, GREEN_3 ↦ #26a641,
GREEN_4 ↦ #006d32. -/
def get_color : CellState → Nat × Nat × Nat
  | .DEAD => (235, 237, 240)
  | .GREEN_1 => (198, 228, 139)
  | .GREEN_2 => (126, 231, 135)
  | .GREEN_3 => (38, 166, 65)
  | .GREEN_4 => (0, 109, 50)

/-- The RGB triple of a state read as a single 24-bit number
(r·65536 + g·256 + b), the "numeric RGB value" the spec's tie-break
compares. -/
def rgbValue (s : CellState) : Nat :=
  (get_color s).1 * 65536 + (get_color s).2.1 * 256 + (get_color s).2.2

/-- Errors raised by the core, mirroring the Python exception classes the
tests expect: `ValueError` (dimension/range/precondition errors),
`TypeError`, `IndexError`. -/
inductive PyError where
  | valueError (msg : String)
  | typeError (msg : String)
  | indexError (msg : String)
deriving DecidableEq, Repr

instance {ε α : Type} [DecidableEq ε] [DecidableEq α] :
    DecidableEq (Except ε α) := fun x y =>
  match x, y with
  | .ok a, .ok b => decidable_of_iff (a = b) (by simp)
  | .error e, .error f => decidable_of_iff (e = f) (by simp)
  | .ok _, .error _ => isFalse (by simp)
  | .error _, .ok _ => isFalse (by simp)

/-- A dynamically-typed Python value that may appear as one cell of the raw
input handed to the `Grid` constructor or to the contribution mapping:
either an actual `CellState` or one of the ill-typed values the tests feed
in (`None`, a string, a raw int, a bool, a float — the float's numeric value
is irrelevant to the core, which only rejects it, so it carries none). -/
inductive PyVal where
  | cell (s : CellState)
  | pyNone
  | pyStr (s : String)
  | pyInt (n : Int)
  | pyBool (b : Bool)
  | pyFloat
deriving DecidableEq, Repr

/-- A row of the raw constructor input: a Python sequence of values, or a
non-sequence object (e.g. the string the tests put in place of a row). -/
inductive PyRow where
  | list (vs : List PyVal)
  | nonSeq
deriving DecidableEq, Repr

/-- The whole raw constructor input: a Python sequence of rows, or a
non-sequence object. -/
inductive PyCells where
  | list (rows : List PyRow)
  | nonSeq
deriving DecidableEq, Repr

/-- Modelled from the spec: `Grid` in `gh_game_of_life.core.grid` — an
immutable 2D container of `CellState`s. Validation lives in `construct`;
`valid` states the 7×53 shape invariant. -/
structure Grid where
  cells : List (List CellState)
deriving DecidableEq, Repr

/-- Grid dimensions: `Grid.ROWS == 7`. -/
def Grid.ROWS : Nat := 7

/-- Grid dimensions: `Grid.COLS == 53`. -/
def Grid.COLS : Nat := 53

/-- The 7×53 shape invariant every constructed grid satisfies. -/
def Grid.valid (g : Grid) : Prop :=
  g.cells.length = 7 ∧ ∀ row ∈ g.cells, row.length = 53

instance (g : Grid) : Decidable g.valid := by
  unfold Grid.valid; infer_instance

/-- Total in-bounds cell accessor used by the engine (which only reads
positions inside the fixed 7×53 range); out-of-range reads default to DEAD,
matching the VOID reading of nonexistent cells. -/
def cellAt (g : Grid) (r c : Nat) : CellState :=
  (g.cells.getD r []).getD c .DEAD

/-- Modelled from the spec: `Grid.empty()` — all cells DEAD. -/
def Grid.empty : Grid :=
  ⟨List.replicate 7 (List.replicate 53 .DEAD)⟩

/-- Modelled from the spec: `Grid.full()` — all cells GREEN_4. -/
def Grid.full : Grid :=
  ⟨List.replicate 7 (List.replicate 53 .GREEN_4)⟩

/-- Helper mirroring the tests' `cells[r][c] = state` setup step: the grid
equal to `g` except that position `(r, c)` holds `s`. -/
def setCell (g : Grid) (r c : Nat) (s : CellState) : Grid :=
  ⟨g.cells.mapIdx fun i row =>
    if i = r then row.mapIdx (fun j v => if j = c then s else v) else row⟩

/-- Modelled from the spec: the per-element check of the `Grid` constructor —
every element must be an actual `CellState` (None, strings, raw ints, bools
are `TypeError`s). -/
def checkCell : PyVal → Except PyError CellState
  | .cell s => .ok s
  | _ => .error (.typeError "All cells must be CellState values")

/-- Sequentially validate the elements of one row. -/
def checkCells : List PyVal → Except PyError (List CellState)
  | [] => .ok []
  | v :: rest =>
    match checkCell v with
    | .error e => .error e
    | .ok s =>
      match checkCells rest with
      | .error e => .error e
      | .ok ss => .ok (s :: ss)

/-- Modelled from the spec: per-row validation of the `Grid` constructor — a
row must be a sequence (else `TypeError`), must have exactly 53 columns
(else a dimension `ValueError` naming the expected column count), and every
element must pass `checkCell`. -/
def checkRow : PyRow → Except PyError (List CellState)
  | .nonSeq => .error (.typeError "Each row must be a list or tuple")
  | .list vs =>
    if vs.length = 53 then checkCells vs
    else .error (.valueError "Each row must have 53 columns")

/-- Sequentially validate all rows. -/
def checkRows : List PyRow → Except PyError (List (List CellState))
  | [] => .ok []
  | r :: rest =>
    match checkRow r with
    | .error e => .error e
    | .ok row =>
      match checkRows rest with
      | .error e => .error e
      | .ok rows => .ok (row :: rows)

/-- Modelled from the spec: `Grid(cells)` construction — rejects a
non-sequence outer value with a `TypeError`, a row count other than 7 with a
dimension `ValueError`, then validates each row (length 53, all elements
`CellState`) in order. Never truncates or pads. -/
def construct : PyCells → Except PyError Grid
  | .nonSeq => .error (.typeError "Cells must be a list or tuple of rows")
  | .list rows =>
    if rows.length = 7 then
      match checkRows rows with
      | .error e => .error e
      | .ok css => .ok ⟨css⟩
    else .error (.valueError "Grid must have 7 rows")

/-- Modelled from the spec: `ColorQuad.contribution_to_state` — maps a raw
per-day contribution count to a `CellState` by fixed thresholds
(0 → DEAD, 1–2 → GREEN_1, 3–4 → GREEN_2, 5–7 → GREEN_3, 8+ → GREEN_4);
negative counts raise `ValueError`, non-integers raise `TypeError`. -/
def contribution_to_state : PyVal → Except PyError CellState
  | .pyInt n =>
    if n < 0 then .error (.valueError "Contribution count must be >= 0")
    else .ok (if n = 0 then .DEAD
      else if n ≤ 2 then .GREEN_1
      else if n ≤ 4 then .GREEN_2
      else if n ≤ 7 then .GREEN_3
      else .GREEN_4)
  | _ => .error (.typeError "Contribution count must be an integer")

/-- Modelled from the spec: `BoundaryStrategy` in `gh_game_of_life.core.game`
— VOID treats out-of-grid positions as nonexistent, LOOP wraps indices
modulo ROWS/COLS (torus). -/
inductive BoundaryStrategy where
  | VOID
  | LOOP
deriving DecidableEq, Repr

/-- The 8 compass offsets used by neighbor resolution. -/
def offsets : List (Int × Int) :=
  [(-1, -1), (-1, 0), (-1, 1), (0, -1), (0, 1), (1, -1), (1, 0), (1, 1)]

/-- Modelled from the spec: resolve one compass offset from `(r, c)` under
the boundary strategy — VOID discards out-of-range positions, LOOP wraps
both indices modulo ROWS=7 / COLS=53. -/
def resolveOffset (strat : BoundaryStrategy) (r c : Nat) (d : Int × Int) :
    Option (Nat × Nat) :=
  let nr : Int := (r : Int) + d.1
  let nc : Int := (c : Int) + d.2
  match strat with
  | .VOID =>
    if 0 ≤ nr ∧ nr < 7 ∧ 0 ≤ nc ∧ nc < 53 then some (nr.toNat, nc.toNat)
    else none
  | .LOOP => some ((nr % 7).toNat, (nc % 53).toNat)

/-- The states of the (resolved) neighbors of `(r, c)` in `g`. -/
def neighborCells (strat : BoundaryStrategy) (g : Grid) (r c : Nat) :
    List CellState :=
  (offsets.filterMap (resolveOffset strat r c)).map fun p => cellAt g p.1 p.2

/-- Modelled from the spec: `QuadLifeRules.count_alive_neighbors` /
`GameOfLife.count_neighbors` — the number of alive cells among the 8
compass-adjacent positions as resolved by the boundary strategy. -/
def count_alive_neighbors (strat : BoundaryStrategy) (g : Grid) (r c : Nat) :
    Nat :=
  (neighborCells strat g r c).countP fun s => s.is_alive

/-- Modelled from the spec: `GameOfLife.count_neighbors` delegates to the
shared neighbor counting after boundary resolution. -/
def count_neighbors (strat : BoundaryStrategy) (g : Grid) (r c : Nat) : Nat :=
  count_alive_neighbors strat g r c

/-- The per-color neighbor tally: how many adjacent cells hold each of the 4
alive colors (all 4 keys always present). -/
structure Tally where
  g1 : Nat
  g2 : Nat
  g3 : Nat
  g4 : Nat
deriving DecidableEq, Repr

/-- Look up one color's count in a tally (DEAD is never tallied). -/
def Tally.get (t : Tally) : CellState → Nat
  | .DEAD => 0
  | .GREEN_1 => t.g1
  | .GREEN_2 => t.g2
  | .GREEN_3 => t.g3
  | .GREEN_4 => t.g4

/-- Total alive neighbors recorded in a tally. -/
def Tally.total (t : Tally) : Nat := t.g1 + t.g2 + t.g3 + t.g4

/-- The number of distinct colors present (count > 0) in a tally. -/
def Tally.distinct (t : Tally) : Nat :=
  (if 0 < t.g1 then 1 else 0) + (if 0 < t.g2 then 1 else 0) +
    (if 0 < t.g3 then 1 else 0) + (if 0 < t.g4 then 1 else 0)

/-- The largest per-color count in a tally. -/
def Tally.maxCount (t : Tally) : Nat :=
  max (max t.g1 t.g2) (max t.g3 t.g4)

/-- Tally a list of cell states by color. -/
def tallyOf : List CellState → Tally
  | [] => ⟨0, 0, 0, 0⟩
  | s :: rest =>
    let t := tallyOf rest
    match s with
    | .DEAD => t
    | .GREEN_1 => { t with g1 := t.g1 + 1 }
    | .GREEN_2 => { t with g2 := t.g2 + 1 }
    | .GREEN_3 => { t with g3 := t.g3 + 1 }
    | .GREEN_4 => { t with g4 := t.g4 + 1 }

/-- Modelled from the spec: `QuadLifeRules.get_neighbor_color_counts` — the
mapping from each alive color to its count among the resolved neighbors. -/
def get_neighbor_color_counts (strat : BoundaryStrategy) (g : Grid)
    (r c : Nat) : Tally :=
  tallyOf (neighborCells strat g r c)

/-- Modelled from the spec: `QuadLifeRules.should_survive` — true iff the
alive-neighbor count is 2 or 3. -/
def should_survive (n : Nat) : Bool := n == 2 || n == 3

/-- Modelled from the spec: `QuadLifeRules.should_birth` — true iff the
alive-neighbor count is exactly 3. -/
def should_birth (n : Nat) : Bool := n == 3

/-- The color absent from a tally in the three-distinct-colors deadlock case
(exactly one color has count 0 there, and this returns it). -/
def absentColor (t : Tally) : CellState :=
  if t.g1 = 0 then .GREEN_1
  else if t.g2 = 0 then .GREEN_2
  else if t.g3 = 0 then .GREEN_3
  else .GREEN_4

/-- The tie-break choice among the colors whose count attains
`Tally.maxCount`: the tied candidate with the numerically largest RGB value.
The GitHub palette's RGB values strictly decrease from GREEN_1 to GREEN_4
(see `rgbValue_strict_anti` below), so scanning GREEN_1 → GREEN_4 and
returning the first color attaining the maximum picks exactly that
candidate. -/
def pickTieBreak (t : Tally) : CellState :=
  if t.g1 = t.maxCount then .GREEN_1
  else if t.g2 = t.maxCount then .GREEN_2
  else if t.g3 = t.maxCount then .GREEN_3
  else .GREEN_4

/-- Modelled from the spec: the color-decision core of
`QuadLifeRules.determine_birth_color`, as a function of the neighbor tally.
Steps, in order: zero alive neighbors → precondition `ValueError`; a strict
majority color (count exceeding every other color's count) wins; three
distinct colors among exactly three alive neighbors → the absent 4th color
(deadlock resolution); otherwise the tie-break by largest RGB value among
the colors tied at the maximal count. -/
def birthColorFromTally (t : Tally) : Except PyError CellState :=
  if t.total = 0 then
    .error (.valueError "Cannot determine birth color: no alive neighbors")
  else if t.g2 < t.g1 ∧ t.g3 < t.g1 ∧ t.g4 < t.g1 then .ok .GREEN_1
  else if t.g1 < t.g2 ∧ t.g3 < t.g2 ∧ t.g4 < t.g2 then .ok .GREEN_2
  else if t.g1 < t.g3 ∧ t.g2 < t.g3 ∧ t.g4 < t.g3 then .ok .GREEN_3
  else if t.g1 < t.g4 ∧ t.g2 < t.g4 ∧ t.g3 < t.g4 then .ok .GREEN_4
  else if t.total = 3 ∧ t.distinct = 3 then .ok (absentColor t)
  else .ok (pickTieBreak t)

/-- Modelled from the spec: `QuadLifeRules.determine_birth_color` — tallies
the neighbors' colors and applies `birthColorFromTally`. -/
def determine_birth_color (strat : BoundaryStrategy) (g : Grid) (r c : Nat) :
    Except PyError CellState :=
  birthColorFromTally (get_neighbor_color_counts strat g r c)

/-- Modelled from the spec: the per-cell transition of
`GameOfLife.next_generation` — an alive cell keeps its color iff its
alive-neighbor count satisfies `should_survive`, otherwise dies; a DEAD
cell becomes `determine_birth_color` iff the count satisfies `should_birth`
(in which case the count is 3 > 0 and no error arises), otherwise stays
DEAD. Every read goes to the unmodified input grid `g`. -/
def nextCell (strat : BoundaryStrategy) (g : Grid) (r c : Nat) : CellState :=
  let cnt := count_neighbors strat g r c
  let cur := cellAt g r c
  if cur.is_alive then
    if should_survive cnt then cur else .DEAD
  else if should_birth cnt then
    match determine_birth_color strat g r c with
    | .ok s => s
    | .error _ => .DEAD
  else .DEAD

/-- Modelled from the spec: `GameOfLife.next_generation` — a new 7×53 grid
whose every cell is `nextCell` computed from the same input grid
(synchronous update). -/
def next_generation (strat : BoundaryStrategy) (g : Grid) : Grid :=
  ⟨(List.range 7).map fun r => (List.range 53).map fun c => nextCell strat g r c⟩

/-- The history of `k` further generations starting from `g` (`k + 1` grids,
the first being `g` itself). -/
def evolveAux (strat : BoundaryStrategy) (g : Grid) : Nat → List Grid
  | 0 => [g]
  | Nat.succ k => g :: evolveAux strat (next_generation strat g) k

/-- Modelled from the spec: `GameOfLife.evolve(grid, generations)` — a
`ValueError` for negative generations, else the ordered list of
`generations + 1` grids starting with the input grid. -/
def evolve (strat : BoundaryStrategy) (g : Grid) (generations : Int) :
    Except PyError (List Grid) :=
  if generations < 0 then
    .error (.valueError "generations must be >= 0")
  else .ok (evolveAux strat g generations.toNat)

/-- Modelled from the spec: `GameOfLife.simulate(grid, generations)` — a
`ValueError` for negative generations, else only the final grid:
`next_generation` applied `generations` times. -/
def simulate (strat : BoundaryStrategy) (g : Grid) (generations : Int) :
    Except PyError Grid :=
  if generations < 0 then
    .error (.valueError "generations must be >= 0")
  else .ok ((next_generation strat)^[generations.toNat] g)

/-! ## Helper lemmas -/

/-- The GitHub palette's numeric RGB values strictly decrease with the
ordinal: GREEN_1 has the largest value, GREEN_4 the smallest. -/
theorem rgbValue_strict_anti :
    rgbValue .GREEN_4 < rgbValue .GREEN_3 ∧
    rgbValue .GREEN_3 < rgbValue .GREEN_2 ∧
    rgbValue .GREEN_2 < rgbValue .GREEN_1 := by decide

theorem should_survive_eq_true (n : Nat) :
    should_survive n = true ↔ n = 2 ∨ n = 3 := by
  simp [should_survive]

theorem should_birth_eq_true (n : Nat) : should_birth n = true ↔ n = 3 := by
  simp [should_birth]

theorem tallyOf_total (l : List CellState) :
    (tallyOf l).total = l.countP fun s => s.is_alive := by
  induction l with
  | nil => rfl
  | cons s rest ih =>
    rw [List.countP_cons]
    simp only [Tally.total] at ih
    cases s <;> simp +decide [tallyOf, Tally.total] <;> omega

theorem gncc_total (strat : BoundaryStrategy) (g : Grid) (r c : Nat) :
    (get_neighbor_color_counts strat g r c).total =
      count_alive_neighbors strat g r c :=
  tallyOf_total _

theorem birthColorFromTally_ok (t : Tally) (h : t.total ≠ 0) :
    ∃ s, birthColorFromTally t = .ok s := by
  unfold birthColorFromTally
  rw [if_neg h]
  split_ifs <;> exact ⟨_, rfl⟩

theorem determine_birth_color_ok (strat : BoundaryStrategy) (g : Grid)
    (r c : Nat) (h : count_alive_neighbors strat g r c ≠ 0) :
    ∃ s, determine_birth_color strat g r c = .ok s := by
  apply birthColorFromTally_ok
  rw [gncc_total]
  exact h

theorem birthColor_majority (t : Tally) (x : CellState)
    (hx : x.is_alive = true)
    (h : ∀ y : CellState, y.is_alive = true → y ≠ x → t.get y < t.get x) :
    birthColorFromTally t = .ok x := by
  obtain ⟨a, b, c, d⟩ := t
  cases x <;> simp only [CellState.is_alive] at hx <;> try exact absurd hx (by decide)
  case GREEN_1 =>
    have h2 := h .GREEN_2 (by decide) (by decide)
    have h3 := h .GREEN_3 (by decide) (by decide)
    have h4 := h .GREEN_4 (by decide) (by decide)
    simp only [Tally.get] at h2 h3 h4
    simp only [birthColorFromTally, Tally.total]
    split_ifs <;> first | rfl | (exfalso; omega)
  case GREEN_2 =>
    have h1 := h .GREEN_1 (by decide) (by decide)
    have h3 := h .GREEN_3 (by decide) (by decide)
    have h4 := h .GREEN_4 (by decide) (by decide)
    simp only [Tally.get] at h1 h3 h4
    simp only [birthColorFromTally, Tally.total]
    split_ifs <;> first | rfl | (exfalso; omega)
  case GREEN_3 =>
    have h1 := h .GREEN_1 (by decide) (by decide)
    have h2 := h .GREEN_2 (by decide) (by decide)
    have h4 := h .GREEN_4 (by decide) (by decide)
    simp only [Tally.get] at h1 h2 h4
    simp only [birthColorFromTally, Tally.total]
    split_ifs <;> first | rfl | (exfalso; omega)
  case GREEN_4 =>
    have h1 := h .GREEN_1 (by decide) (by decide)
    have h2 := h .GREEN_2 (by decide) (by decide)
    have h3 := h .GREEN_3 (by decide) (by decide)
    simp only [Tally.get] at h1 h2 h3
    simp only [birthColorFromTally, Tally.total]
    split_ifs <;> first | rfl | (exfalso; omega)

theorem birthColor_deadlock (t : Tally) (x : CellState)
    (hx : x.is_alive = true) (h0 : t.get x = 0)
    (h : ∀ y : CellState, y.is_alive = true → y ≠ x → t.get y = 1) :
    birthColorFromTally t = .ok x := by
  obtain ⟨a, b, c, d⟩ := t
  cases x <;> simp only [CellState.is_alive] at hx <;> try exact absurd hx (by decide)
  case GREEN_1 =>
    have h2 := h .GREEN_2 (by decide) (by decide)
    have h3 := h .GREEN_3 (by decide) (by decide)
    have h4 := h .GREEN_4 (by decide) (by decide)
    simp only [Tally.get] at h0 h2 h3 h4
    subst h0 h2 h3 h4
    decide
  case GREEN_2 =>
    have h1 := h .GREEN_1 (by decide) (by decide)
    have h3 := h .GREEN_3 (by decide) (by decide)
    have h4 := h .GREEN_4 (by decide) (by decide)
    simp only [Tally.get] at h0 h1 h3 h4
    subst h0 h1 h3 h4
    decide
  case GREEN_3 =>
    have h1 := h .GREEN_1 (by decide) (by decide)
    have h2 := h .GREEN_2 (by decide) (by decide)
    have h4 := h .GREEN_4 (by decide) (by decide)
    simp only [Tally.get] at h0 h1 h2 h4
    subst h0 h1 h2 h4
    decide
  case GREEN_4 =>
    have h1 := h .GREEN_1 (by decide) (by decide)
    have h2 := h .GREEN_2 (by decide) (by decide)
    have h3 := h .GREEN_3 (by decide) (by decide)
    simp only [Tally.get] at h0 h1 h2 h3
    subst h0 h1 h2 h3
    decide

/-- `pickTieBreak` does return a tied candidate (its count attains the
maximum) and that candidate's RGB value dominates every tied candidate's. -/
theorem pickTieBreak_spec (t : Tally) :
    t.get (pickTieBreak t) = t.maxCount ∧
    ∀ s : CellState, s.is_alive = true → t.get s = t.maxCount →
      rgbValue s ≤ rgbValue (pickTieBreak t) := by
  obtain ⟨a, b, c, d⟩ := t
  constructor
  · simp only [pickTieBreak, Tally.maxCount]
    split_ifs <;> simp [Tally.get] <;> omega
  · intro s hs hmax
    cases s <;> simp only [CellState.is_alive] at hs <;> try exact absurd hs (by decide)
    all_goals
      simp only [Tally.get, Tally.maxCount] at hmax
    all_goals
      simp only [pickTieBreak, Tally.maxCount]
    all_goals
      split_ifs <;> simp [rgbValue, get_color]

theorem cellAt_next_generation (strat : BoundaryStrategy) (g : Grid)
    {r c : Nat} (hr : r < 7) (hc : c < 53) :
    cellAt (next_generation strat g) r c = nextCell strat g r c := by
  unfold cellAt next_generation
  have h1 : r < ((List.range 7).map fun r =>
      (List.range 53).map fun c => nextCell strat g r c).length := by
    simpa using hr
  rw [List.getD_eq_getElem _ _ h1, List.getElem_map, List.getElem_range]
  have h2 : c < ((List.range 53).map fun c => nextCell strat g r c).length := by
    simpa using hc
  rw [List.getD_eq_getElem _ _ h2, List.getElem_map, List.getElem_range]

theorem evolveAux_length (strat : BoundaryStrategy) :
    ∀ (k : Nat) (g : Grid), (evolveAux strat g k).length = k + 1
  | 0, _ => rfl
  | Nat.succ k, g => by
    rw [evolveAux, List.length_cons, evolveAux_length strat k]

theorem evolveAux_getD (strat : BoundaryStrategy) :
    ∀ (k : Nat) (g : Grid) (i : Nat), i ≤ k →
      (evolveAux strat g k).getD i Grid.empty = (next_generation strat)^[i] g
  | 0, g, 0, _ => rfl
  | Nat.succ k, g, 0, _ => rfl
  | Nat.succ k, g, Nat.succ i, h => by
    rw [evolveAux]
    show (evolveAux strat (next_generation strat g) k).getD i Grid.empty = _
    rw [evolveAux_getD strat k _ i (Nat.le_of_succ_le_succ h),
      Function.iterate_succ_apply]

theorem evolveAux_getLast (strat : BoundaryStrategy) (k : Nat) (g : Grid) :
    (evolveAux strat g k).getLast? = some ((next_generation strat)^[k] g) := by
  have hlen := evolveAux_length strat k g
  have hk : k < (evolveAux strat g k).length := by omega
  rw [List.getLast?_eq_getElem?, hlen, Nat.add_sub_cancel,
    List.getElem?_eq_getElem hk, ← List.getD_eq_getElem _ Grid.empty hk,
    evolveAux_getD strat k g k (Nat.le_refl k)]

theorem checkCells_ok (vs : List PyVal)
    (h : ∀ v ∈ vs, ∃ s, v = PyVal.cell s) :
    ∃ cs, checkCells vs = .ok cs := by
  induction vs with
  | nil => exact ⟨[], rfl⟩
  | cons v rest ih =>
    obtain ⟨s, hs⟩ := h v (List.mem_cons_self v rest)
    obtain ⟨cs, hcs⟩ := ih fun v hv => h v (List.mem_cons_of_mem _ hv)
    subst hs
    refine ⟨s :: cs, ?_⟩
    rw [checkCells]
    simp only [checkCell, hcs]

theorem checkCells_err (vs : List PyVal)
    (h : ∃ v ∈ vs, ∀ s, v ≠ PyVal.cell s) :
    ∃ m, checkCells vs = .error (.typeError m) := by
  induction vs with
  | nil => simp at h
  | cons v rest ih =>
    rw [checkCells]
    obtain ⟨w, hw, hbad⟩ := h
    rcases List.mem_cons.mp hw with hv | hv
    · subst hv
      cases w <;> first
        | exact absurd rfl (hbad _)
        | exact ⟨_, rfl⟩
    · cases v with
      | cell s =>
        obtain ⟨m, hm⟩ := ih ⟨w, hv, hbad⟩
        simp only [checkCell, hm]
        exact ⟨m, rfl⟩
      | pyNone => exact ⟨_, rfl⟩
      | pyStr s => exact ⟨_, rfl⟩
      | pyInt n => exact ⟨_, rfl⟩
      | pyBool b => exact ⟨_, rfl⟩
      | pyFloat => exact ⟨_, rfl⟩

theorem checkCells_err_typeError (vs : List PyVal) (e : PyError)
    (h : checkCells vs = .error e) : ∃ m, e = PyError.typeError m := by
  induction vs with
  | nil => simp [checkCells] at h
  | cons v rest ih =>
    rw [checkCells] at h
    cases v with
    | cell s =>
      simp only [checkCell] at h
      cases hrest : checkCells rest with
      | ok cs => rw [hrest] at h; simp at h
      | error f => rw [hrest] at h; cases h; exact ih hrest
    | pyNone => cases h; exact ⟨_, rfl⟩
    | pyStr s => cases h; exact ⟨_, rfl⟩
    | pyInt n => cases h; exact ⟨_, rfl⟩
    | pyBool b => cases h; exact ⟨_, rfl⟩
    | pyFloat => cases h; exact ⟨_, rfl⟩

theorem checkRows_col_err (rows : List PyRow)
    (hall : ∀ r ∈ rows, ∃ vs, r = PyRow.list vs ∧ ∀ v ∈ vs, ∃ s, v = PyVal.cell s)
    (hbad : ∃ r ∈ rows, ∀ vs, r = PyRow.list vs → vs.length ≠ 53) :
    checkRows rows = .error (.valueError "Each row must have 53 columns") := by
  induction rows with
  | nil => simp at hbad
  | cons r rest ih =>
    obtain ⟨vs, hvs, hcells⟩ := hall r (List.mem_cons_self r rest)
    subst hvs
    obtain ⟨w, hw, hwbad⟩ := hbad
    rw [checkRows]
    rcases List.mem_cons.mp hw with hv | hv
    · subst hv
      have hne := hwbad vs rfl
      simp only [checkRow, if_neg hne]
    · by_cases hlen : vs.length = 53
      · obtain ⟨cs, hcs⟩ := checkCells_ok vs hcells
        simp only [checkRow, if_pos hlen, hcs]
        rw [ih (fun r hr => hall r (List.mem_cons_of_mem _ hr)) ⟨w, hv, hwbad⟩]
      · simp only [checkRow, if_neg hlen]

theorem checkRows_type_err (rows : List PyRow)
    (hall : ∀ r ∈ rows, ∃ vs, r = PyRow.list vs ∧ vs.length = 53)
    (hbad : ∃ r ∈ rows, ∃ vs, r = PyRow.list vs ∧ ∃ v ∈ vs, ∀ s, v ≠ PyVal.cell s) :
    ∃ m, checkRows rows = .error (.typeError m) := by
  induction rows with
  | nil => simp at hbad
  | cons r rest ih =>
    obtain ⟨vs, hvs, hlen⟩ := hall r (List.mem_cons_self r rest)
    subst hvs
    rw [checkRows]
    simp only [checkRow, if_pos hlen]
    cases hc : checkCells vs with
    | error e =>
      obtain ⟨m, hm⟩ := checkCells_err_typeError vs e hc
      subst hm
      exact ⟨m, rfl⟩
    | ok cs =>
      obtain ⟨w, hw, hwbad⟩ := hbad
      rcases List.mem_cons.mp hw with hv | hv
      · subst hv
        obtain ⟨vs2, hvs2, hbadelem⟩ := hwbad
        have hinj : vs = vs2 := by injection hvs2
        subst hinj
        obtain ⟨m, hm⟩ := checkCells_err vs hbadelem
        rw [hm] at hc
        simp at hc
      · obtain ⟨m, hm⟩ := ih (fun r hr => hall r (List.mem_cons_of_mem _ hr))
          ⟨w, hv, hwbad⟩
        rw [hm]
        exact ⟨m, rfl⟩

theorem checkRows_nonSeq_err (rows : List PyRow)
    (hall : ∀ r ∈ rows, r = PyRow.nonSeq ∨
      ∃ vs, r = PyRow.list vs ∧ vs.length = 53 ∧ ∀ v ∈ vs, ∃ s, v = PyVal.cell s)
    (hbad : ∃ r ∈ rows, r = PyRow.nonSeq) :
    ∃ m, checkRows rows = .error (.typeError m) := by
  induction rows with
  | nil => simp at hbad
  | cons r rest ih =>
    rw [checkRows]
    rcases hall r (List.mem_cons_self r rest) with hr | ⟨vs, hvs, hlen, hcells⟩
    · subst hr
      exact ⟨_, rfl⟩
    · subst hvs
      obtain ⟨cs, hcs⟩ := checkCells_ok vs hcells
      simp only [checkRow, if_pos hlen, hcs]
      obtain ⟨w, hw, hwbad⟩ := hbad
      rcases List.mem_cons.mp hw with hv | hv
      · subst hwbad; simp at hv
      · obtain ⟨m, hm⟩ := ih (fun r hr => hall r (List.mem_cons_of_mem _ hr))
          ⟨w, hv, hwbad⟩
        rw [hm]
        exact ⟨m, rfl⟩

/-- Tally-level form of the tie-break step: when there is at least one alive
neighbor, no strict-majority color, and the three-distinct-colors deadlock
does not apply, the result is `pickTieBreak`. -/
theorem birthColor_tiebreak (t : Tally) (h0 : t.total ≠ 0)
    (hnomaj : ∀ x : CellState, x.is_alive = true →
      ∃ y : CellState, y.is_alive = true ∧ y ≠ x ∧ t.get x ≤ t.get y)
    (hnodead : ¬(t.total = 3 ∧ t.distinct = 3)) :
    birthColorFromTally t = .ok (pickTieBreak t) := by
  obtain ⟨a, b, c, d⟩ := t
  obtain ⟨y1, hy1a, hy1ne, hy1⟩ := hnomaj .GREEN_1 (by decide)
  obtain ⟨y2, hy2a, hy2ne, hy2⟩ := hnomaj .GREEN_2 (by decide)
  obtain ⟨y3, hy3a, hy3ne, hy3⟩ := hnomaj .GREEN_3 (by decide)
  obtain ⟨y4, hy4a, hy4ne, hy4⟩ := hnomaj .GREEN_4 (by decide)
  have hc1 : ¬(b < a ∧ c < a ∧ d < a) := by
    cases y1
    case DEAD => simp [CellState.is_alive] at hy1a
    case GREEN_1 => exact (hy1ne rfl).elim
    all_goals simp only [Tally.get] at hy1
    all_goals omega
  have hc2 : ¬(a < b ∧ c < b ∧ d < b) := by
    cases y2
    case DEAD => simp [CellState.is_alive] at hy2a
    case GREEN_2 => exact (hy2ne rfl).elim
    all_goals simp only [Tally.get] at hy2
    all_goals omega
  have hc3 : ¬(a < c ∧ b < c ∧ d < c) := by
    cases y3
    case DEAD => simp [CellState.is_alive] at hy3a
    case GREEN_3 => exact (hy3ne rfl).elim
    all_goals simp only [Tally.get] at hy3
    all_goals omega
  have hc4 : ¬(a < d ∧ b < d ∧ c < d) := by
    cases y4
    case DEAD => simp [CellState.is_alive] at hy4a
    case GREEN_4 => exact (hy4ne rfl).elim
    all_goals simp only [Tally.get] at hy4
    all_goals omega
  simp only [Tally.total, Tally.distinct] at h0 hnodead
  simp only [birthColorFromTally, Tally.total, Tally.distinct]
  rw [if_neg h0, if_neg hc1, if_neg hc2, if_neg hc3, if_neg hc4, if_neg hnodead]

/-! ## Test-fixture grids (mirroring the concrete setups in `tests/core`) -/

/-- The grid of `test_tiebreaker_rgb_value`: a GREEN_1 at (2, 25) and a
GREEN_4 at (2, 27), both neighbors of (3, 26). -/
def gridTieG1G4 : Grid :=
  setCell (setCell Grid.empty 2 25 .GREEN_1) 2 27 .GREEN_4

/-- The grid of `test_majority_single_color_two_neighbors`: two GREEN_3 and
one GREEN_1 neighbor of (3, 26). -/
def gridTwoG3OneG1 : Grid :=
  setCell (setCell (setCell Grid.empty 2 25 .GREEN_3) 2 26 .GREEN_3) 2 27 .GREEN_1

/-- The grid of `test_three_different_colors_births_fourth`: GREEN_1,
GREEN_2, GREEN_3 neighbors of (3, 26). -/
def gridThreeDistinct : Grid :=
  setCell (setCell (setCell Grid.empty 2 25 .GREEN_1) 2 26 .GREEN_2) 2 27 .GREEN_3

/-- A single alive cell at the far corner (6, 52), diametrically wrapped
neighbor of (0, 0) under LOOP. -/
def gridLoneCorner : Grid := setCell Grid.empty 6 52 .GREEN_1

/-! ## Claims -/

/-- C1 counterexample: at the exact configuration of
`test_tiebreaker_rgb_value` — GREEN_1 and GREEN_4 tied at one neighbor each,
no strict majority and no three-distinct deadlock — `determine_birth_color`
returns GREEN_1, the tied candidate with the SMALLER ordinal (1 < 4), not
GREEN_4; so "the tied candidate whose canonical ordinal is larger wins" is
false on this program. -/
theorem c1_tiebreak_counterexample :
    (get_neighbor_color_counts .VOID gridTieG1G4 3 26).get .GREEN_1 = 1 ∧
    (get_neighbor_color_counts .VOID gridTieG1G4 3 26).get .GREEN_4 = 1 ∧
    (get_neighbor_color_counts .VOID gridTieG1G4 3 26).get .GREEN_2 = 0 ∧
    (get_neighbor_color_counts .VOID gridTieG1G4 3 26).get .GREEN_3 = 0 ∧
    CellState.GREEN_1.toInt < CellState.GREEN_4.toInt ∧
    determine_birth_color .VOID gridTieG1G4 3 26 = .ok .GREEN_1 ∧
    determine_birth_color .VOID gridTieG1G4 3 26 ≠ .ok .GREEN_4 := by decide

/-- C1 (amended): whenever the tie-break step decides (at least one alive
neighbor, no strict-majority color, deadlock rule inapplicable), the newborn
color is a tied candidate (its count attains the maximal count) whose
palette RGB value is numerically largest among all tied candidates — under
the GitHub palette RGB strictly decreases with the ordinal, so this is the
lowest-ordinal tied candidate. Determinism is inherent: the result is a
function of the neighbor tally alone. -/
theorem c1_tiebreak_largest_rgb (strat : BoundaryStrategy) (g : Grid)
    (r c : Nat)
    (h0 : (get_neighbor_color_counts strat g r c).total ≠ 0)
    (hnomaj : ∀ x : CellState, x.is_alive = true →
      ∃ y : CellState, y.is_alive = true ∧ y ≠ x ∧
        (get_neighbor_color_counts strat g r c).get x ≤
          (get_neighbor_color_counts strat g r c).get y)
    (hnodead : ¬((get_neighbor_color_counts strat g r c).total = 3 ∧
      (get_neighbor_color_counts strat g r c).distinct = 3)) :
    ∃ w, determine_birth_color strat g r c = .ok w ∧
      (get_neighbor_color_counts strat g r c).get w =
        (get_neighbor_color_counts strat g r c).maxCount ∧
      ∀ s : CellState, s.is_alive = true →
        (get_neighbor_color_counts strat g r c).get s =
          (get_neighbor_color_counts strat g r c).maxCount →
        rgbValue s ≤ rgbValue w := by
  refine ⟨pickTieBreak (get_neighbor_color_counts strat g r c), ?_,
    (pickTieBreak_spec _).1, fun s hs hm => (pickTieBreak_spec _).2 s hs hm⟩
  exact birthColor_tiebreak _ h0 hnomaj hnodead

/-- C1 (amended) witness: at the `test_tiebreaker_rgb_value` grid the
tie-break hypotheses hold and the theorem produces the winner. -/
theorem c1_tiebreak_largest_rgb_witness :
    ∃ w, determine_birth_color .VOID gridTieG1G4 3 26 = .ok w ∧
      (get_neighbor_color_counts .VOID gridTieG1G4 3 26).get w =
        (get_neighbor_color_counts .VOID gridTieG1G4 3 26).maxCount ∧
      ∀ s : CellState, s.is_alive = true →
        (get_neighbor_color_counts .VOID gridTieG1G4 3 26).get s =
          (get_neighbor_color_counts .VOID gridTieG1G4 3 26).maxCount →
        rgbValue s ≤ rgbValue w :=
  c1_tiebreak_largest_rgb .VOID gridTieG1G4 3 26 (by decide) (by decide)
    (by decide)

/-- C3: `determine_birth_color` returns the strict-majority neighbor color
when one alive color's count exceeds every other alive color's count, and
when the tally is exactly three distinct colors at one neighbor each it
returns the unique absent 4th color. -/
theorem c3_majority_and_deadlock (strat : BoundaryStrategy) (g : Grid)
    (r c : Nat) :
    (∀ x : CellState, x.is_alive = true →
      (∀ y : CellState, y.is_alive = true → y ≠ x →
        (get_neighbor_color_counts strat g r c).get y <
          (get_neighbor_color_counts strat g r c).get x) →
      determine_birth_color strat g r c = .ok x) ∧
    (∀ x : CellState, x.is_alive = true →
      (get_neighbor_color_counts strat g r c).get x = 0 →
      (∀ y : CellState, y.is_alive = true → y ≠ x →
        (get_neighbor_color_counts strat g r c).get y = 1) →
      determine_birth_color strat g r c = .ok x) :=
  ⟨fun x hx h => birthColor_majority _ x hx h,
    fun x hx h0 h => birthColor_deadlock _ x hx h0 h⟩

/-- C3 witness: the majority branch at the `2 × GREEN_3 + 1 × GREEN_1` grid
yields GREEN_3, and the deadlock branch at the three-distinct grid yields
GREEN_4. -/
theorem c3_majority_and_deadlock_witness :
    determine_birth_color .VOID gridTwoG3OneG1 3 26 = .ok .GREEN_3 ∧
    determine_birth_color .VOID gridThreeDistinct 3 26 = .ok .GREEN_4 :=
  ⟨(c3_majority_and_deadlock .VOID gridTwoG3OneG1 3 26).1 .GREEN_3 (by decide)
      (by decide),
    (c3_majority_and_deadlock .VOID gridThreeDistinct 3 26).2 .GREEN_4
      (by decide) (by decide) (by decide)⟩

/-- C6: with zero alive neighbors, `determine_birth_color` fails with the
precondition `ValueError` rather than returning any color. -/
theorem c6_no_neighbors_error (strat : BoundaryStrategy) (g : Grid)
    (r c : Nat) (h : count_alive_neighbors strat g r c = 0) :
    determine_birth_color strat g r c =
      .error (.valueError "Cannot determine birth color: no alive neighbors") := by
  unfold determine_birth_color birthColorFromTally
  rw [if_pos]
  rw [gncc_total]
  exact h

/-- C6 witness: the empty grid has zero alive neighbors everywhere, so the
precondition error fires at (3, 26). -/
theorem c6_no_neighbors_error_witness :
    determine_birth_color .VOID Grid.empty 3 26 =
      .error (.valueError "Cannot determine birth color: no alive neighbors") :=
  c6_no_neighbors_error .VOID Grid.empty 3 26 (by decide)

/-- C10: `determine_birth_color` errors exactly on zero alive neighbors —
with one or more alive neighbors (in particular just two, where the spec's
"called only at a birth" precondition is violated) it still returns some
color via the same majority/deadlock/tie-break logic, deterministically. -/
theorem c10_err_iff_no_neighbors (strat : BoundaryStrategy) (g : Grid)
    (r c : Nat) :
    (count_alive_neighbors strat g r c = 0 →
      determine_birth_color strat g r c =
        .error (.valueError "Cannot determine birth color: no alive neighbors")) ∧
    (count_alive_neighbors strat g r c ≠ 0 →
      ∃ s, determine_birth_color strat g r c = .ok s) := by
  constructor
  · intro h
    unfold determine_birth_color birthColorFromTally
    rw [if_pos]
    rw [gncc_total]
    exact h
  · intro h
    exact determine_birth_color_ok strat g r c h

/-- C10 witness: at the two-neighbor tie grid the call does not error but
returns a color. -/
theorem c10_err_iff_no_neighbors_witness :
    ∃ s, determine_birth_color .VOID gridTieG1G4 3 26 = .ok s :=
  (c10_err_iff_no_neighbors .VOID gridTieG1G4 3 26).2 (by decide)

/-- C2: every cell of `next_generation` is decided independently from the
unmodified input grid: an alive cell keeps its exact color iff its neighbor
count is 2 or 3 and otherwise dies; a DEAD cell becomes
`determine_birth_color` iff its count is exactly 3 (the call then cannot
error) and otherwise stays DEAD. Synchrony is structural: the right-hand
sides mention only the input grid `g`, never the grid under construction. -/
theorem c2_next_generation_rule (strat : BoundaryStrategy) (g : Grid)
    (r c : Nat) (hr : r < 7) (hc : c < 53) :
    ((cellAt g r c).is_alive = true →
      (count_neighbors strat g r c = 2 ∨ count_neighbors strat g r c = 3) →
      cellAt (next_generation strat g) r c = cellAt g r c) ∧
    ((cellAt g r c).is_alive = true →
      ¬(count_neighbors strat g r c = 2 ∨ count_neighbors strat g r c = 3) →
      cellAt (next_generation strat g) r c = .DEAD) ∧
    ((cellAt g r c).is_alive = false →
      count_neighbors strat g r c = 3 →
      ∃ s, determine_birth_color strat g r c = .ok s ∧
        cellAt (next_generation strat g) r c = s) ∧
    ((cellAt g r c).is_alive = false →
      count_neighbors strat g r c ≠ 3 →
      cellAt (next_generation strat g) r c = .DEAD) := by
  rw [cellAt_next_generation strat g hr hc]
  refine ⟨?_, ?_, ?_, ?_⟩
  · intro ha hs
    simp only [nextCell]
    rw [if_pos ha, if_pos ((should_survive_eq_true _).mpr hs)]
  · intro ha hs
    simp only [nextCell]
    rw [if_pos ha, if_neg]
    intro hcon
    exact hs ((should_survive_eq_true _).mp hcon)
  · intro hd hcnt
    obtain ⟨s, hs⟩ := determine_birth_color_ok strat g r c
      (by unfold count_neighbors at hcnt; omega)
    refine ⟨s, hs, ?_⟩
    simp only [nextCell]
    rw [if_neg (by simp [hd]), if_pos ((should_birth_eq_true _).mpr hcnt), hs]
  · intro hd hcnt
    simp only [nextCell]
    rw [if_neg (by simp [hd]), if_neg]
    intro hcon
    exact hcnt ((should_birth_eq_true _).mp hcon)

/-- C2 witness: at the empty grid the dead center cell (3, 26) with zero
neighbors stays DEAD. -/
theorem c2_next_generation_rule_witness :
    cellAt (next_generation .VOID Grid.empty) 3 26 = .DEAD :=
  (c2_next_generation_rule .VOID Grid.empty 3 26 (by decide) (by decide)).2.2.2
    (by decide) (by decide)

/-- C4: for nonnegative `generations`, `evolve` returns a list of exactly
`generations + 1` grids whose element 0 is the input grid, whose element i
is `next_generation` iterated i times, and whose last element is exactly
what `simulate` returns; `evolve(g, 0) = [g]` and `simulate(g, 0) = g`. -/
theorem c4_evolve_simulate (strat : BoundaryStrategy) (g : Grid) (n : Int)
    (hn : 0 ≤ n) :
    ∃ l, evolve strat g n = .ok l ∧
      l.length = n.toNat + 1 ∧
      l.getD 0 Grid.empty = g ∧
      (∀ i, i ≤ n.toNat →
        l.getD i Grid.empty = (next_generation strat)^[i] g) ∧
      l.getLast? = some ((next_generation strat)^[n.toNat] g) ∧
      simulate strat g n = .ok ((next_generation strat)^[n.toNat] g) ∧
      (n = 0 → evolve strat g 0 = .ok [g] ∧ simulate strat g 0 = .ok g) := by
  have hneg : ¬n < 0 := by omega
  refine ⟨evolveAux strat g n.toNat, ?_, evolveAux_length strat n.toNat g,
    evolveAux_getD strat n.toNat g 0 (Nat.zero_le _),
    fun i hi => evolveAux_getD strat n.toNat g i hi,
    evolveAux_getLast strat n.toNat g, ?_, ?_⟩
  · unfold evolve
    rw [if_neg hneg]
  · unfold simulate
    rw [if_neg hneg]
  · intro h
    subst h
    exact ⟨rfl, rfl⟩

/-- C4 witness: three generations from the empty grid. -/
theorem c4_evolve_simulate_witness :
    ∃ l, evolve .VOID Grid.empty 3 = .ok l ∧
      l.length = (3 : Int).toNat + 1 ∧
      l.getD 0 Grid.empty = Grid.empty ∧
      (∀ i, i ≤ (3 : Int).toNat →
        l.getD i Grid.empty = (next_generation .VOID)^[i] Grid.empty) ∧
      l.getLast? = some ((next_generation .VOID)^[(3 : Int).toNat] Grid.empty) ∧
      simulate .VOID Grid.empty 3 =
        .ok ((next_generation .VOID)^[(3 : Int).toNat] Grid.empty) ∧
      ((3 : Int) = 0 →
        evolve .VOID Grid.empty 0 = .ok [Grid.empty] ∧
        simulate .VOID Grid.empty 0 = .ok Grid.empty) :=
  c4_evolve_simulate .VOID Grid.empty 3 (by decide)

/-- C5: for negative `generations` both `evolve` and `simulate` fail with
the range `ValueError`, raised before any evolution step. -/
theorem c5_negative_generations (strat : BoundaryStrategy) (g : Grid)
    (n : Int) (hn : n < 0) :
    evolve strat g n = .error (.valueError "generations must be >= 0") ∧
    simulate strat g n = .error (.valueError "generations must be >= 0") := by
  unfold evolve simulate
  rw [if_pos hn, if_pos hn]
  exact ⟨rfl, rfl⟩

/-- C5 witness: `generations = -1` on the empty grid. -/
theorem c5_negative_generations_witness :
    evolve .VOID Grid.empty (-1) =
      .error (.valueError "generations must be >= 0") ∧
    simulate .VOID Grid.empty (-1) =
      .error (.valueError "generations must be >= 0") :=
  c5_negative_generations .VOID Grid.empty (-1) (by decide)

/-- C7: under VOID the corner (0, 0) resolves only the 3 in-bounds neighbor
positions (so its count is at most 3 on every grid), while under LOOP it
resolves all 8 wrapped positions, among them the diametrically wrapped
(6, 52); an alive cell there is counted as adjacent to (0, 0). -/
theorem c7_boundary_corner (g : Grid) :
    (offsets.filterMap (resolveOffset .VOID 0 0)).length = 3 ∧
    count_neighbors .VOID g 0 0 ≤ 3 ∧
    (offsets.filterMap (resolveOffset .LOOP 0 0)).length = 8 ∧
    (6, 52) ∈ offsets.filterMap (resolveOffset .LOOP 0 0) ∧
    ((cellAt g 6 52).is_alive = true → 1 ≤ count_neighbors .LOOP g 0 0) := by
  have hv : offsets.filterMap (resolveOffset .VOID 0 0) =
      [(0, 1), (1, 0), (1, 1)] := by decide
  have hl : offsets.filterMap (resolveOffset .LOOP 0 0) =
      [(6, 52), (6, 0), (6, 1), (0, 52), (0, 1), (1, 52), (1, 0), (1, 1)] := by
    decide
  refine ⟨by rw [hv]; rfl, ?_, by rw [hl]; rfl, by rw [hl]; decide, ?_⟩
  · unfold count_neighbors count_alive_neighbors neighborCells
    rw [hv]
    exact (List.countP_le_length _).trans (by simp)
  · intro h
    unfold count_neighbors count_alive_neighbors neighborCells
    rw [hl]
    simp [List.countP_cons, h]

/-- C7 witness: with a lone GREEN_1 at (6, 52), the LOOP count at (0, 0) is
at least 1 and the VOID count stays at most 3. -/
theorem c7_boundary_corner_witness :
    count_neighbors .VOID gridLoneCorner 0 0 ≤ 3 ∧
    1 ≤ count_neighbors .LOOP gridLoneCorner 0 0 :=
  ⟨(c7_boundary_corner gridLoneCorner).2.1,
    (c7_boundary_corner gridLoneCorner).2.2.2.2 (by decide)⟩

/-- C8: `Grid` construction validates eagerly and never truncates or pads:
a non-sequence outer value or row and any non-`CellState` element are
`TypeError`s; a row count other than 7, or (with types otherwise in order)
any row length other than 53, are dimension `ValueError`s — the latter with
the message naming the expected 53 columns. -/
theorem c8_construct_validation :
    construct .nonSeq = .error (.typeError "Cells must be a list or tuple of rows") ∧
    (∀ rows : List PyRow, rows.length ≠ 7 →
      construct (.list rows) = .error (.valueError "Grid must have 7 rows")) ∧
    (∀ rows : List PyRow, rows.length = 7 →
      (∀ r ∈ rows, ∃ vs, r = PyRow.list vs ∧ ∀ v ∈ vs, ∃ s, v = PyVal.cell s) →
      (∃ r ∈ rows, ∀ vs, r = PyRow.list vs → vs.length ≠ 53) →
      construct (.list rows) =
        .error (.valueError "Each row must have 53 columns")) ∧
    (∀ rows : List PyRow, rows.length = 7 →
      (∀ r ∈ rows, ∃ vs, r = PyRow.list vs ∧ vs.length = 53) →
      (∃ r ∈ rows, ∃ vs, r = PyRow.list vs ∧ ∃ v ∈ vs, ∀ s, v ≠ PyVal.cell s) →
      ∃ m, construct (.list rows) = .error (.typeError m)) ∧
    (∀ rows : List PyRow, rows.length = 7 →
      (∀ r ∈ rows, r = PyRow.nonSeq ∨
        ∃ vs, r = PyRow.list vs ∧ vs.length = 53 ∧
          ∀ v ∈ vs, ∃ s, v = PyVal.cell s) →
      (∃ r ∈ rows, r = PyRow.nonSeq) →
      ∃ m, construct (.list rows) = .error (.typeError m)) := by
  refine ⟨rfl, ?_, ?_, ?_, ?_⟩
  · intro rows h
    simp only [construct]
    rw [if_neg h]
  · intro rows h7 hall hbad
    simp only [construct]
    rw [if_pos h7, checkRows_col_err rows hall hbad]
  · intro rows h7 hall hbad
    obtain ⟨m, hm⟩ := checkRows_type_err rows hall hbad
    refine ⟨m, ?_⟩
    simp only [construct]
    rw [if_pos h7, hm]
  · intro rows h7 hall hbad
    obtain ⟨m, hm⟩ := checkRows_nonSeq_err rows hall hbad
    refine ⟨m, ?_⟩
    simp only [construct]
    rw [if_pos h7, hm]

/-- C8 witness: each rejection fires at a concrete input — 8 rows; 7 rows
of 54 columns; a raw integer among the cells; a non-sequence row. -/
theorem c8_construct_validation_witness :
    construct (.list (List.replicate 8
        (PyRow.list (List.replicate 53 (PyVal.cell .DEAD))))) =
      .error (.valueError "Grid must have 7 rows") ∧
    construct (.list (List.replicate 7
        (PyRow.list (List.replicate 54 (PyVal.cell .DEAD))))) =
      .error (.valueError "Each row must have 53 columns") ∧
    (∃ m, construct (.list (List.replicate 7
        (PyRow.list (PyVal.pyInt 1 :: List.replicate 52 (PyVal.cell .DEAD))))) =
      .error (.typeError m)) ∧
    (∃ m, construct (.list (PyRow.nonSeq :: List.replicate 6
        (PyRow.list (List.replicate 53 (PyVal.cell .DEAD))))) =
      .error (.typeError m)) := by
  refine ⟨c8_construct_validation.2.1 _ (by decide), ?_, ?_, ?_⟩
  · refine c8_construct_validation.2.2.1 _ (by decide) ?_ ?_
    · intro r hr
      rw [List.eq_of_mem_replicate hr]
      refine ⟨_, rfl, fun v hv => ?_⟩
      rw [List.eq_of_mem_replicate hv]
      exact ⟨_, rfl⟩
    · refine ⟨_, List.mem_replicate.mpr ⟨by decide, rfl⟩, ?_⟩
      intro vs h hlen
      injection h with h2
      rw [← h2] at hlen
      exact absurd hlen (by decide)
  · refine c8_construct_validation.2.2.2.1 _ (by decide) ?_ ?_
    · intro r hr
      rw [List.eq_of_mem_replicate hr]
      exact ⟨_, rfl, by decide⟩
    · refine ⟨_, List.mem_replicate.mpr ⟨by decide, rfl⟩, _, rfl,
        PyVal.pyInt 1, List.mem_cons_self _ _, ?_⟩
      intro s h
      simp at h
  · refine c8_construct_validation.2.2.2.2 _ (by decide) ?_
      ⟨PyRow.nonSeq, List.mem_cons_self _ _, rfl⟩
    intro r hr
    rcases List.mem_cons.mp hr with h | h
    · exact Or.inl h
    · right
      rw [List.eq_of_mem_replicate h]
      refine ⟨_, rfl, by decide, fun v hv => ?_⟩
      rw [List.eq_of_mem_replicate hv]
      exact ⟨_, rfl⟩

/-- C9: the contribution mapping uses the fixed thresholds 0 → DEAD,
1–2 → GREEN_1, 3–4 → GREEN_2, 5–7 → GREEN_3, 8+ → GREEN_4, rejects negative
integers with a `ValueError`, and rejects non-integers (strings, None,
floats, booleans) with a `TypeError` before any `Grid` is constructed. -/
theorem c9_contribution_thresholds (n : Int) :
    (n < 0 → contribution_to_state (.pyInt n) =
      .error (.valueError "Contribution count must be >= 0")) ∧
    (n = 0 → contribution_to_state (.pyInt n) = .ok .DEAD) ∧
    (1 ≤ n ∧ n ≤ 2 → contribution_to_state (.pyInt n) = .ok .GREEN_1) ∧
    (3 ≤ n ∧ n ≤ 4 → contribution_to_state (.pyInt n) = .ok .GREEN_2) ∧
    (5 ≤ n ∧ n ≤ 7 → contribution_to_state (.pyInt n) = .ok .GREEN_3) ∧
    (8 ≤ n → contribution_to_state (.pyInt n) = .ok .GREEN_4) ∧
    (∀ s, contribution_to_state (.pyStr s) =
      .error (.typeError "Contribution count must be an integer")) ∧
    contribution_to_state .pyNone =
      .error (.typeError "Contribution count must be an integer") ∧
    contribution_to_state .pyFloat =
      .error (.typeError "Contribution count must be an integer") ∧
    (∀ b, contribution_to_state (.pyBool b) =
      .error (.typeError "Contribution count must be an integer")) := by
  refine ⟨?_, ?_, ?_, ?_, ?_, ?_, fun s => rfl, rfl, rfl, fun b => rfl⟩ <;>
    intro h <;> simp only [contribution_to_state] <;> split_ifs <;>
    first | rfl | omega

/-- C9 witness: the boundary values 2, 3, 4, 7, 8 and the rejected input
-1 behave as claimed. -/
theorem c9_contribution_thresholds_witness :
    contribution_to_state (.pyInt 2) = .ok .GREEN_1 ∧
    contribution_to_state (.pyInt 3) = .ok .GREEN_2 ∧
    contribution_to_state (.pyInt 4) = .ok .GREEN_2 ∧
    contribution_to_state (.pyInt 7) = .ok .GREEN_3 ∧
    contribution_to_state (.pyInt 8) = .ok .GREEN_4 ∧
    contribution_to_state (.pyInt (-1)) =
      .error (.valueError "Contribution count must be >= 0") :=
  ⟨(c9_contribution_thresholds 2).2.2.1 (by decide),
    (c9_contribution_thresholds 3).2.2.2.1 (by decide),
    (c9_contribution_thresholds 4).2.2.2.1 (by decide),
    (c9_contribution_thresholds 7).2.2.2.2.1 (by decide),
    (c9_contribution_thresholds 8).2.2.2.2.2.1 (by decide),
    (c9_contribution_thresholds (-1)).1 (by decide)⟩

end GhGameOfLife





